import Mathlib

/-!
Shallow embedding of the aegis_lights self-adaptive traffic controller core
(`aegislights-controller`), restricted to the parts the verified claims are
about.  Python floats are modelled as rationals (`ℚ`), intersection ids as
strings.  Each definition cites the source function it embeds.
-/

/-- Runtime-graph edge (graph_manager/graph_model.py `GraphEdge`): static and
dynamic attributes used by the cost, hotspot, metrics and bypass code. -/
structure GraphEdge where
  from_node : String
  to_node : String
  capacity : ℚ := 0
  free_flow_time : ℚ := 0
  current_queue : ℚ := 0
  current_delay : ℚ := 0
  current_flow : ℚ := 0
  spillback_active : Bool := false
  incident_active : Bool := false
  edge_cost : ℚ := 0
deriving DecidableEq

/-- Runtime graph (graph_manager/graph_model.py `TrafficGraph`): the edge dict
keyed by `(from, to)` is modelled as a list in insertion order (Python dicts
preserve insertion order), the node dict as the list of node ids. -/
structure TrafficGraph where
  nodes : List String
  edges : List GraphEdge
deriving DecidableEq

/-- KnowledgeBase.get_cost_coefficients → CostConfig.get_coefficients
(config/costs.py): the `(a, b, c, d)` tuple with the dataclass defaults
`delay_weight = 1.0`, `queue_weight = 0.5`, `spillback_weight = 10.0`,
`incident_weight = 20.0`. -/
def cost_coefficients_default : ℚ × ℚ × ℚ × ℚ := (1, 1/2, 10, 20)

/-- graph_manager/graph_utils.py `compute_edge_costs` (lines 194-221):
`cost = a·current_delay + b·current_queue + c·(10 if spillback else 0)
+ d·(20 if incident else 0)`, written back onto each edge; returns the
`(from,to) → cost` dict (as an association list) and the updated graph. -/
def compute_edge_costs (graph : TrafficGraph) (coefficients : ℚ × ℚ × ℚ × ℚ) :
    List ((String × String) × ℚ) × TrafficGraph :=
  let (a, b, c, d) := coefficients
  let updated := graph.edges.map fun e =>
    { e with edge_cost :=
        a * e.current_delay +
        b * e.current_queue +
        c * (if e.spillback_active then (10 : ℚ) else 0) +
        d * (if e.incident_active then (20 : ℚ) else 0) }
  (updated.map fun e => ((e.from_node, e.to_node), e.edge_cost),
   { graph with edges := updated })

/-- numpy.percentile with the default linear interpolation, as used by
`identify_hotspots`: sort, take `h = (n-1)·p/100`, interpolate between the
neighbouring order statistics.  (numpy raises on an empty list; the caller
guards with `if not graph.edges`.) -/
def np_percentile (xs : List ℚ) (p : ℚ) : ℚ :=
  let s := xs.insertionSort (· ≤ ·)
  let n := s.length
  let h : ℚ := ((n : ℚ) - 1) * p / 100
  let i : ℕ := (⌊h⌋).toNat
  let lo := s.getD i 0
  let hi := s.getD (min (i + 1) (n - 1)) 0
  lo + (h - (⌊h⌋ : ℚ)) * (hi - lo)

/-- graph_manager/graph_utils.py `identify_hotspots` (lines 224-247): empty
graph → `[]`; otherwise every edge whose `edge_cost` is `≥` the
`threshold·100`-th percentile of all edge costs, in dict insertion order. -/
def identify_hotspots (graph : TrafficGraph) (threshold : ℚ) :
    List (String × String) :=
  if graph.edges = [] then []
  else
    let costs := graph.edges.map (·.edge_cost)
    let threshold_value := np_percentile costs (threshold * 100)
    (graph.edges.filter (fun e => threshold_value ≤ e.edge_cost)).map
      (fun e => (e.from_node, e.to_node))

/-- Incident record as produced by Analyzer._process_incidents
(adaptation_manager/analyze.py): only the fields `_determine_targets` reads. -/
structure IncidentRec where
  from_node : String
  to_node : String
  severity : String
deriving DecidableEq

/-- Bypass route record produced by `find_k_shortest_paths`
(graph_manager/graph_utils.py lines 250-341). -/
structure BypassRoute where
  source : String
  destination : String
  path : List (String × String)
  total_cost : ℚ
  bypasses : String × String
  length : ℕ
deriving DecidableEq

/-- Throttle/favor entry of Analyzer._determine_targets
(adaptation_manager/analyze.py lines 217-289). -/
structure TargetEdge where
  from_node : String
  to_node : String
  reason : String
  cost : ℚ
deriving DecidableEq

/-- Output of Analyzer._determine_targets. -/
structure Targets where
  edges_to_throttle : List TargetEdge
  edges_to_favor : List TargetEdge
  affected_intersections : Finset String
  adaptation_needed : Bool
deriving DecidableEq

/-- Dict lookup `edge_costs.get(edge_key, 0.0)` over the association list
returned by `compute_edge_costs`. -/
def edge_cost_lookup (costs : List ((String × String) × ℚ))
    (k : String × String) : ℚ :=
  match costs.find? (fun kc => kc.1 == k) with
  | some kc => kc.2
  | none => 0

/-- Analyzer._determine_targets (adaptation_manager/analyze.py lines 217-289):
throttle ← hotspots, then incident edges not already throttled; favor ← bypass
path edges that are not hotspots; `adaptation_needed` iff either list is
non-empty. -/
def determine_targets (hotspots : List (String × String))
    (bypasses : List BypassRoute) (incidents : List IncidentRec)
    (edge_costs : List ((String × String) × ℚ)) : Targets :=
  let throttle_hot := hotspots.map fun k =>
    TargetEdge.mk k.1 k.2 "hotspot" (edge_cost_lookup edge_costs k)
  let throttle := throttle_hot ++
    (incidents.filterMap fun inc =>
      if (throttle_hot.map fun e => (e.from_node, e.to_node)).contains
          (inc.from_node, inc.to_node) then none
      else some (TargetEdge.mk inc.from_node inc.to_node "incident"
        (edge_cost_lookup edge_costs (inc.from_node, inc.to_node))))
  let favor := bypasses.flatMap fun bp =>
    bp.path.filterMap fun k =>
      if hotspots.contains k then none
      else some (TargetEdge.mk k.1 k.2 "bypass" (edge_cost_lookup edge_costs k))
  let affected := (throttle.map (·.from_node)).toFinset ∪
    (favor.map (·.from_node)).toFinset
  { edges_to_throttle := throttle
    edges_to_favor := favor
    affected_intersections := affected
    adaptation_needed := decide (0 < throttle.length ∨ 0 < favor.length) }

/-- Per-cycle metrics record of MetricsCalculator.calculate
(adaptation_manager/metrics.py lines 28-97): only the numeric fields the
claims are about. -/
structure CycleMetrics where
  avg_delay : ℚ
  avg_queue : ℚ
  network_cost : ℚ
  total_spillbacks : ℕ
  avg_trip_time : ℚ
  utility_score : ℚ
deriving DecidableEq

/-- MetricsCalculator.calculate (adaptation_manager/metrics.py lines 28-97):
sums delay/queue/cost over the Runtime Graph's edges, averages delay and
queue, counts spillback edges, and sets `utility_score := network_cost`
(source line 87: `'utility_score': network_cost  # Use network cost as
utility`). -/
def metrics_calculate (graph : TrafficGraph)
    (average_travel_time : Option ℚ) : CycleMetrics :=
  let edge_count := graph.edges.length
  let sum_delay := (graph.edges.map (·.current_delay)).sum
  let sum_queue := (graph.edges.map (·.current_queue)).sum
  let network_cost := (graph.edges.map (·.edge_cost)).sum
  let spillback_count := (graph.edges.filter (·.spillback_active)).length
  let avg_delay := if 0 < edge_count then sum_delay / edge_count else 0
  let avg_queue := if 0 < edge_count then sum_queue / edge_count else 0
  let avg_trip_time := match average_travel_time with
    | some t => t
    | none => avg_delay
  { avg_delay := avg_delay
    avg_queue := avg_queue
    network_cost := network_cost
    total_spillbacks := spillback_count
    avg_trip_time := avg_trip_time
    utility_score := network_cost }

/-- networkx `DiGraph.predecessors(v)` on the graph built by `_to_networkx`
from `graph.edges`: sources of the edges entering `v`. -/
def graph_predecessors (graph : TrafficGraph) (v : String) : List String :=
  (graph.edges.filter (fun e => e.to_node == v)).map (·.from_node)

/-- networkx `DiGraph.successors(v)`: targets of the edges leaving `v`. -/
def graph_successors (graph : TrafficGraph) (v : String) : List String :=
  (graph.edges.filter (fun e => e.from_node == v)).map (·.to_node)

/-- TrafficGraph.get_edge: lookup in the `(from,to)`-keyed edge dict. -/
def get_edge (graph : TrafficGraph) (u v : String) : Option GraphEdge :=
  graph.edges.find? (fun e => e.from_node == u && e.to_node == v)

/-- Inner loop of `find_k_shortest_paths` over one candidate node path
(graph_manager/graph_utils.py lines 309-321): walk consecutive node pairs,
append each pair to the edge path, and `break` with `uses_hotspot = True` the
moment the pair equals the hotspot edge; otherwise accumulate the edge cost.
Argument `prev` is the previous node of the walk. -/
def walk_path_pairs (graph : TrafficGraph) (hotspot_edge : String × String) :
    String → List String → List (String × String) × ℚ × Bool
  | _, [] => ([], 0, false)
  | prev, next :: rest =>
    let edge_key := (prev, next)
    if edge_key = hotspot_edge then ([edge_key], 0, true)
    else
      let c := match get_edge graph prev next with
        | some e => e.edge_cost
        | none => 0
      let tail := walk_path_pairs graph hotspot_edge next rest
      (edge_key :: tail.1, c + tail.2.1, tail.2.2)

/-- Convert one node path to an edge path with total cost and the
`uses_hotspot` flag (see `walk_path_pairs`). -/
def process_path (graph : TrafficGraph) (hotspot_edge : String × String) :
    List String → List (String × String) × ℚ × Bool
  | [] => ([], 0, false)
  | v :: rest => walk_path_pairs graph hotspot_edge v rest

/-- graph_manager/graph_utils.py `find_k_shortest_paths` (lines 250-341).
`simple_paths u v` stands for `nx.shortest_simple_paths(nx_graph, u, v)`
(library code, not in the repository): the theorem about this function holds
for every path enumeration, so it is a parameter; `NetworkXNoPath` /
`NodeNotFound` correspond to an empty enumeration.  Per hotspot (first 5),
per predecessor of `u` (first 2) and successor of `v` (first 2), the first
`k` candidate paths are converted to edge paths; a path is kept only if it
did not use the hotspot edge and is non-empty. -/
def find_k_shortest_paths (graph : TrafficGraph) (k : ℕ)
    (hotspots : List (String × String))
    (simple_paths : String → String → List (List String)) : List BypassRoute :=
  if hotspots = [] ∨ graph.nodes.length < 2 then []
  else
    (hotspots.take (min hotspots.length 5)).flatMap fun hotspot_edge =>
      let from_int := hotspot_edge.1
      let to_int := hotspot_edge.2
      let upstream_nodes := graph_predecessors graph from_int
      let downstream_nodes := graph_successors graph to_int
      if upstream_nodes = [] then []
      else if downstream_nodes = [] then []
      else
        (upstream_nodes.take 2).flatMap fun upstream =>
          (downstream_nodes.take 2).flatMap fun downstream =>
            ((simple_paths upstream downstream).take k).filterMap fun path =>
              let res := process_path graph hotspot_edge path
              if res.2.2 = false ∧ res.1 ≠ [] then
                some { source := upstream
                       destination := downstream
                       path := res.1
                       total_cost := res.2.1
                       bypasses := hotspot_edge
                       length := res.1.length }
              else none

/-- Metrics dict as read by RollbackManager._calculate_utility
(adaptation_manager/rollback_manager.py lines 82-121): the four
`metrics.get(..., 0)` fields. -/
structure PerfMetrics where
  network_cost : ℚ
  avg_delay : ℚ
  avg_queue : ℚ
  total_spillbacks : ℚ
deriving DecidableEq

/-- RollbackManager._calculate_utility (rollback_manager.py lines 82-121):
`U = −(network_cost·1.0 + avg_delay·1.0 + avg_queue·0.5 +
total_spillbacks·10.0)`. -/
def calculate_utility (m : PerfMetrics) : ℚ :=
  -(m.network_cost * 1 + m.avg_delay * 1 + m.avg_queue * (1/2) +
    m.total_spillbacks * 10)

/-- RollbackManager state: the `deque(maxlen=rollback_window_size)` of
utilities and the optional baseline. -/
structure RollbackState where
  window : List ℚ
  baseline : Option ℚ
deriving DecidableEq

/-- `deque.append` with `maxlen`: drop the oldest element when full. -/
def deque_append (maxlen : ℕ) (w : List ℚ) (x : ℚ) : List ℚ :=
  let w' := w ++ [x]
  if maxlen < w'.length then w'.drop (w'.length - maxlen) else w'

/-- RollbackManager.check_for_degradation (rollback_manager.py lines 33-80):
append the utility; `False` while the window is not full; on the first full
window establish the baseline and return `False`; afterwards compute
`degradation = (baseline − mean(window)) / baseline` and return `True` when
it exceeds the threshold, else adopt an improved utility as the new baseline
and return `False`.  (Python float division raises `ZeroDivisionError` at
`baseline = 0`; rational division yields 0 there — every claim below uses a
non-zero baseline.) -/
def check_for_degradation (window_size : ℕ) (threshold : ℚ)
    (st : RollbackState) (metrics : PerfMetrics) : Bool × RollbackState :=
  let utility := calculate_utility metrics
  let window := deque_append window_size st.window utility
  if window.length < window_size then (false, ⟨window, st.baseline⟩)
  else
    match st.baseline with
    | none => (false, ⟨window, some utility⟩)
    | some baseline =>
      let avg_recent := window.sum / (window.length : ℚ)
      let degradation := (baseline - avg_recent) / baseline
      if threshold < degradation then (true, ⟨window, some baseline⟩)
      else
        let baseline' := if baseline < utility then utility else baseline
        (false, ⟨window, some baseline'⟩)

/-- Run `check_for_degradation` over a sequence of per-cycle metrics,
returning the result of the last call and the final state. -/
def run_degradation_checks (window_size : ℕ) (threshold : ℚ)
    (st : RollbackState) : List PerfMetrics → Bool × RollbackState
  | [] => (false, st)
  | [m] => check_for_degradation window_size threshold st m
  | m :: rest =>
    run_degradation_checks window_size threshold
      (check_for_degradation window_size threshold st m).2 rest

/-- Row of the `bandit_state` table as read by KnowledgeBase.get_bandit_stats
(adaptation_manager/knowledge.py lines 310-342). -/
structure BanditRow where
  times_selected : ℕ
  total_reward : ℚ
  avg_reward : ℚ
  confidence : ℚ
deriving DecidableEq

/-- Arm statistics dict used by ContextualBandit
(adaptation_manager/bandit.py `_get_arm_stats`). -/
structure ArmStats where
  times_selected : ℕ
  total_reward : ℚ
  avg_reward : ℚ
  confidence : ℚ
  total_pulls : ℕ
deriving DecidableEq

/-- KnowledgeBase.get_bandit_stats (knowledge.py lines 310-342): returns the
row for `(intersection_id, plan_id)` with `total_pulls := row[0]`, i.e. the
SAME arm's `times_selected` (source line 341: `'total_pulls': row[0]  # For
UCB calculation`).  The table is abstracted as a partial map. -/
def get_bandit_stats (db : String → String → Option BanditRow)
    (intersection_id plan_id : String) : Option ArmStats :=
  (db intersection_id plan_id).map fun r =>
    { times_selected := r.times_selected
      total_reward := r.total_reward
      avg_reward := r.avg_reward
      confidence := r.confidence
      total_pulls := r.times_selected }

/-- ContextualBandit._get_arm_stats (bandit.py lines 153-179): the knowledge
base row, or the fresh-arm default `{times_selected: 0, …, total_pulls: 1}`. -/
def get_arm_stats (db : String → String → Option BanditRow)
    (intersection_id plan_id : String) : ArmStats :=
  match get_bandit_stats db intersection_id plan_id with
  | none =>
    { times_selected := 0, total_reward := 0, avg_reward := 0,
      confidence := 1, total_pulls := 1 }
  | some stats => stats

/-- A plan dict from the phase library as consumed by `_select_ucb`: only
`plan['plan_id']` is read there. -/
structure BanditPlan where
  plan_id : String
deriving DecidableEq

/-- The UCB value computed at bandit.py lines 95-99:
`avg_reward + exploration_factor·sqrt(log(total_pulls) / times_selected)`. -/
noncomputable def ucb_value (exploration_factor : ℝ) (s : ArmStats) : ℝ :=
  (s.avg_reward : ℝ) +
    exploration_factor * Real.sqrt (Real.log s.total_pulls / s.times_selected)

open Classical in
/-- Loop of ContextualBandit._select_ucb (bandit.py lines 83-104): an arm with
`times_selected == 0` is returned immediately; otherwise the running best
(`best_ucb` starts at `-inf`, here `none`) is replaced when the arm's UCB is
strictly greater. -/
noncomputable def select_ucb_loop (db : String → String → Option BanditRow)
    (intersection_id : String) (exploration_factor : ℝ) :
    List BanditPlan → Option (BanditPlan × ℝ) → Option BanditPlan
  | [], best => best.map Prod.fst
  | plan :: rest, best =>
    let stats := get_arm_stats db intersection_id plan.plan_id
    if stats.times_selected = 0 then some plan
    else
      let ucb := ucb_value exploration_factor stats
      match best with
      | none => select_ucb_loop db intersection_id exploration_factor rest
          (some (plan, ucb))
      | some (best_plan, best_ucb) =>
        if best_ucb < ucb then
          select_ucb_loop db intersection_id exploration_factor rest
            (some (plan, ucb))
        else
          select_ucb_loop db intersection_id exploration_factor rest
            (some (best_plan, best_ucb))

/-- ContextualBandit._select_ucb (bandit.py lines 77-105):
`return best_plan if best_plan else valid_plans[0]` (the empty-list
`IndexError` is modelled as `none`). -/
noncomputable def select_ucb (db : String → String → Option BanditRow)
    (intersection_id : String) (exploration_factor : ℝ)
    (valid_plans : List BanditPlan) : Option BanditPlan :=
  match select_ucb_loop db intersection_id exploration_factor valid_plans none with
  | some plan => some plan
  | none => valid_plans.head?

/-- Modelled from the spec's words (claim C3), for comparison with the code:
`r̄_p + ε · √(ln T / N_p)` where `T` is the total number of pulls summed over
ALL arms of this intersection (the arms of its valid plans) and `N_p` the
arm's own pull count. -/
noncomputable def spec_ucb_value (db : String → String → Option BanditRow)
    (intersection_id : String) (valid_plans : List BanditPlan)
    (exploration_factor : ℝ) (p : BanditPlan) : ℝ :=
  let t : ℕ := (valid_plans.map fun q =>
    (get_arm_stats db intersection_id q.plan_id).times_selected).sum
  let s := get_arm_stats db intersection_id p.plan_id
  (s.avg_reward : ℝ) +
    exploration_factor * Real.sqrt (Real.log t / s.times_selected)

/-- Mutable counters of one bandit arm, as updated by
ContextualBandit.update_reward. -/
structure ArmCounters where
  times_selected : ℕ
  total_reward : ℚ
  avg_reward : ℚ
deriving DecidableEq

/-- ContextualBandit.update_reward (bandit.py lines 50-75):
`times += 1; total += reward; avg := total / times`. -/
def update_reward (s : ArmCounters) (reward : ℚ) : ArmCounters :=
  let new_times_selected := s.times_selected + 1
  let new_total_reward := s.total_reward + reward
  { times_selected := new_times_selected
    total_reward := new_total_reward
    avg_reward := new_total_reward / (new_times_selected : ℚ) }

/-- A whole run of reward updates on one arm, oldest reward first. -/
def run_reward_updates (s : ArmCounters) (rewards : List ℚ) : ArmCounters :=
  rewards.foldl update_reward s

/-- Coordination group as consumed by the Planner
(`group['intersections']`). -/
structure CoordGroup where
  intersections : List String
deriving DecidableEq

/-- The literal constant sets of plan.py lines 169-170 and execute.py
line 117. -/
def virtual_nodes : Finset String :=
  {"1", "2", "3", "4", "5", "6", "7", "8"}

/-- Signalized intersections `{'A', 'B', 'C', 'D', 'E'}`. -/
def signalized_intersections : Finset String :=
  {"A", "B", "C", "D", "E"}

/-- The `intersections` set collected by the four loops of
Planner._get_intersections_needing_updates (adaptation_manager/plan.py lines
166-196): `from` intersections of throttle/favor edges, coordination-group
members and incident sources, each filtered against the virtual nodes. -/
def collect_update_intersections (edges_to_throttle : List TargetEdge)
    (edges_to_favor : List TargetEdge) (coordination_groups : List CoordGroup)
    (incidents : List IncidentRec) : Finset String :=
  ((edges_to_throttle.map (·.from_node)).filter
    (fun x => x ∉ virtual_nodes)).toFinset ∪
  ((edges_to_favor.map (·.from_node)).filter
    (fun x => x ∉ virtual_nodes)).toFinset ∪
  ((coordination_groups.flatMap (·.intersections)).filter
    (fun x => x ∉ virtual_nodes)).toFinset ∪
  ((incidents.map (·.from_node)).filter
    (fun x => x ∉ virtual_nodes)).toFinset

/-- Planner._get_intersections_needing_updates (adaptation_manager/plan.py
lines 150-206): the collected set, falling back to all signalized
intersections when it is empty, finally intersected with the signalized
set. -/
def get_intersections_needing_updates (edges_to_throttle : List TargetEdge)
    (edges_to_favor : List TargetEdge) (coordination_groups : List CoordGroup)
    (incidents : List IncidentRec) : Finset String :=
  let collected := collect_update_intersections edges_to_throttle
    edges_to_favor coordination_groups incidents
  let base := if collected = ∅ then signalized_intersections else collected
  base ∩ signalized_intersections

/-- An adaptation dict as produced by the Planner and consumed by the
Executor.  `phase_id` and `offset` model `adaptation.get('phase_id', 0)` /
`adaptation.get('offset', 0.0)` (`none` = key absent).  `phase_id` is an
integer here; the source additionally rejects non-integer Python values with
`isinstance(phase_id, int)`, which has no counterpart in a typed model. -/
structure Adaptation where
  intersection_id : String
  plan_id : String
  phase_id : Option ℤ := some 0
  offset : Option ℚ := some 0
  cycle_length : ℚ := 80
  is_incident_mode : Bool := false
deriving DecidableEq

/-- SafetyValidator.validate_plan (adaptation_manager/safety_validator.py
lines 26-41): returns `True` unconditionally — "Plans in the phase library
are pre-validated during addition so we can trust they are safe."  The phase
library is passed along but never consulted. -/
def validate_plan (_phase_library : List (String × String))
    (_intersection_id _plan_id : String) : Bool :=
  true

/-- One iteration of Executor._validate_adaptations (execute.py lines
119-143): signalized intersection, `phase_id ∈ [0, 3]`,
`safety_validator.validate_plan`, `offset ∈ [0, 300]`, in source order. -/
def validate_adaptation (phase_library : List (String × String))
    (a : Adaptation) : Bool :=
  let phase_id := a.phase_id.getD 0
  let offset := a.offset.getD 0
  if a.intersection_id ∉ signalized_intersections then false
  else if phase_id < 0 ∨ 3 < phase_id then false
  else if validate_plan phase_library a.intersection_id a.plan_id = false then
    false
  else if offset < 0 ∨ 300 < offset then false
  else true

/-- Executor._validate_adaptations (execute.py lines 101-146): `False` as
soon as one adaptation fails, `True` when all pass. -/
def validate_adaptations (phase_library : List (String × String))
    (adaptations : List Adaptation) : Bool :=
  adaptations.all (validate_adaptation phase_library)

/-- The signal state the Executor mutates: intersection id → currently
applied plan id (graph node `current_plan_id`). -/
def upsert_plan (st : List (String × String)) (intersection_id plan_id : String) :
    List (String × String) :=
  (intersection_id, plan_id) :: st.filter (fun kv => kv.1 ≠ intersection_id)

/-- Executor._apply_adaptations (execute.py lines 148-221): every adaptation
in the batch is attempted against the simulator API (`api_success` is the
`update_signal_timing` outcome); on success the node's plan is updated and
the adaptation is appended to `applied`; failures are skipped, the batch
continues. -/
def apply_adaptations (api_success : Adaptation → Bool) :
    List Adaptation → List (String × String) →
    List Adaptation × List (String × String)
  | [], st => ([], st)
  | a :: rest, st =>
    if api_success a then
      let st' := upsert_plan st a.intersection_id a.plan_id
      let (applied, st'') := apply_adaptations api_success rest st'
      (a :: applied, st'')
    else apply_adaptations api_success rest st

/-- Executor.execute, validation and apply part (execute.py lines 43-68):
empty or invalid batches are rejected whole (`applied = []`, state
untouched); a validated batch is passed to `_apply_adaptations`. -/
def executor_execute (phase_library : List (String × String))
    (api_success : Adaptation → Bool) (adaptations : List Adaptation)
    (st : List (String × String)) :
    List Adaptation × List (String × String) :=
  if adaptations = [] then ([], st)
  else if validate_adaptations phase_library adaptations = false then ([], st)
  else apply_adaptations api_success adaptations st

/-- One outgoing road of a snapshot intersection, as read by
Monitor._store_snapshot (adaptation_manager/monitor.py lines 339-365). -/
structure RoadSnapshot where
  to_intersection : String
  current_queue : ℚ
  current_delay : ℚ
  current_flow : ℚ
  spillback_active : Bool
  incident_active : Bool
deriving DecidableEq

/-- A network snapshot: intersections in insertion order with their outgoing
roads. -/
structure NetworkSnapshot where
  timestamp : ℚ
  intersections : List (String × List RoadSnapshot)
deriving DecidableEq

/-- The keyword arguments Monitor._store_snapshot passes to
`self.knowledge.insert_snapshot` (monitor.py lines 350-360). -/
def monitor_insert_snapshot_keywords : List String :=
  ["cycle", "timestamp", "from_intersection", "to_intersection",
   "queue", "delay", "throughput", "spillback", "incident"]

/-- The parameters of KnowledgeBase.insert_snapshot (knowledge.py lines
178-181), all without default values (`self` aside). -/
def kb_insert_snapshot_params : List String :=
  ["cycle", "timestamp", "edge_id", "from_intersection", "to_intersection",
   "queue", "delay", "throughput", "spillback", "incident"]

/-- CPython call binding for the `Monitor._store_snapshot →
KnowledgeBase.insert_snapshot` call: the call raises `TypeError` unless every
required parameter is supplied by a keyword. -/
def kb_insert_snapshot_call_binds : Bool :=
  kb_insert_snapshot_params.all (monitor_insert_snapshot_keywords.contains ·)

/-- Inner road loop of Monitor._store_snapshot: each iteration calls
`KB.insert_snapshot`; a `TypeError` aborts the loop with the rows committed
so far.  Returns (rows committed, raised?). -/
def store_snapshot_roads : List RoadSnapshot → ℕ × Bool
  | [] => (0, false)
  | _ :: rest =>
    if kb_insert_snapshot_call_binds then
      let (n, raised) := store_snapshot_roads rest
      (n + 1, raised)
    else (0, true)

/-- Outer intersection loop of Monitor._store_snapshot. -/
def store_snapshot_intersections : List (String × List RoadSnapshot) → ℕ × Bool
  | [] => (0, false)
  | (_, roads) :: rest =>
    let (n, raised) := store_snapshot_roads roads
    if raised then (n, true)
    else
      let (m, raised') := store_snapshot_intersections rest
      (n + m, raised')

/-- Monitor._store_snapshot (monitor.py lines 339-365): the whole double loop
sits in a `try`; an exception is caught and logged, so the function always
returns normally (the cycle is never aborted).  The result is the number of
snapshot rows actually inserted. -/
def store_snapshot (snapshot : NetworkSnapshot) : ℕ :=
  (store_snapshot_intersections snapshot.intersections).1

/-- Number of (intersection, road) pairs in a snapshot: the edges the claim
expects one snapshot row for. -/
def snapshot_road_count (snapshot : NetworkSnapshot) : ℕ :=
  (snapshot.intersections.map fun ir => ir.2.length).sum

/-- Claim C1: with the default window (3) and threshold (10%), the utility
sequence −100, −140, −90 (the −90 becomes the baseline on the first full
window), −100, −140, −180 leaves the window at −100, −140, −180 (moving
average −140); the claim's degradation measured against the baseline's
magnitude is (−90 − (−140)) = 50 > 9 = 10%·|−90|, so the claim requires
`true` — but `check_for_degradation` divides by the signed (negative)
baseline, computes degradation −5/9, and returns `false`. -/
theorem C1_check_for_degradation_code_eval :
    run_degradation_checks 3 (1/10) ⟨[], none⟩
      [⟨100, 0, 0, 0⟩, ⟨140, 0, 0, 0⟩, ⟨90, 0, 0, 0⟩,
       ⟨100, 0, 0, 0⟩, ⟨140, 0, 0, 0⟩, ⟨180, 0, 0, 0⟩] =
      (false, ⟨[-100, -140, -180], some (-90)⟩) ∧
    (1/10 : ℚ) * |(-90 : ℚ)| < (-90 : ℚ) - (((-100) + (-140) + (-180)) / 3) := by
  constructor
  · norm_num [run_degradation_checks, check_for_degradation, calculate_utility,
      deque_append]
  · rw [abs_of_nonpos (by norm_num)]
    norm_num

/-- Claim C5: for a snapshot with one intersection and one outgoing road the
claim requires exactly one snapshot row; `Monitor._store_snapshot` passes no
`edge_id` keyword while `KnowledgeBase.insert_snapshot` requires one, so the
call raises `TypeError` on the first road, the surrounding `try` swallows it,
and zero rows are inserted (the cycle itself is not aborted). -/
theorem C5_store_snapshot_inserts_no_rows :
    store_snapshot ⟨0, [("A", [⟨"B", 3, 2, 0, false, false⟩])]⟩ = 0 ∧
    snapshot_road_count ⟨0, [("A", [⟨"B", 3, 2, 0, false, false⟩])]⟩ = 1 ∧
    kb_insert_snapshot_call_binds = false := by
  decide

/-- Claim C6 (counterexample): on a graph with a single edge of cost 5 the
metrics record has `utility_score = 5 = network_cost`, not
`−network_cost = −5` as the claim states. -/
theorem C6_utility_score_not_negated_cost :
    (metrics_calculate ⟨["A", "B"],
        [{ from_node := "A", to_node := "B", edge_cost := 5 }]⟩ none).utility_score
      = 5 ∧
    (metrics_calculate ⟨["A", "B"],
        [{ from_node := "A", to_node := "B", edge_cost := 5 }]⟩ none).utility_score
      ≠ -(metrics_calculate ⟨["A", "B"],
        [{ from_node := "A", to_node := "B", edge_cost := 5 }]⟩ none).network_cost := by
  norm_num [metrics_calculate]

/-- Claim C6 (amended): the per-cycle metrics record satisfies
`utility_score = network_cost` (the code stores the network cost itself, not
its negation), and `network_cost` is the sum of `edge_cost` over all edges of
the Runtime Graph. -/
theorem C6_utility_score_equals_network_cost (graph : TrafficGraph)
    (travel_time : Option ℚ) :
    (metrics_calculate graph travel_time).utility_score =
      (metrics_calculate graph travel_time).network_cost ∧
    (metrics_calculate graph travel_time).network_cost =
      (graph.edges.map (·.edge_cost)).sum :=
  ⟨rfl, rfl⟩

/-- Claim C8 (counterexample): one reward update with the (typical, negative)
reward −1 strictly decreases `total_reward`, so the counters are not all
monotone non-decreasing. -/
theorem C8_total_reward_decreases :
    (update_reward ⟨0, 0, 0⟩ (-1)).total_reward <
      (ArmCounters.mk 0 0 0).total_reward := by
  norm_num [update_reward]

/-- Claim C2 (counterexample): a graph with exactly one edge, of cost 0 (all
edge costs are 0 and fewer than two edges have costs), yields `[("A", "B")]`
from `identify_hotspots` — the percentile of `[0]` is 0 and the edge's cost
is `≥ 0` — not the empty list the claim requires. -/
theorem C2_single_zero_edge_is_hotspot :
    identify_hotspots ⟨["A", "B"], [{ from_node := "A", to_node := "B" }]⟩
        (7/10) = [("A", "B")] ∧
    identify_hotspots ⟨["A", "B"], [{ from_node := "A", to_node := "B" }]⟩
        (7/10) ≠ [] := by
  constructor
  · norm_num [identify_hotspots, np_percentile, List.insertionSort,
      List.orderedInsert]
  · norm_num [identify_hotspots, np_percentile, List.insertionSort,
      List.orderedInsert]

/-- Claim C4 (counterexample): an adaptation for signalized intersection `A`
with `phase_id = 0`, `offset = 0` and a `plan_id` that is missing from the
(empty) phase library passes validation and is applied —
`SafetyValidator.validate_plan` returns `True` unconditionally, so a missing
plan never causes the batch to be rejected as the claim states. -/
theorem C4_missing_plan_not_rejected :
    validate_adaptations []
        [{ intersection_id := "A", plan_id := "ghost" }] = true ∧
    (executor_execute [] (fun _ => true)
        [{ intersection_id := "A", plan_id := "ghost" }] []).1 =
      [{ intersection_id := "A", plan_id := "ghost" }] := by
  decide

lemma run_reward_updates_times_mono : ∀ (rewards : List ℚ) (s : ArmCounters),
    s.times_selected ≤ (run_reward_updates s rewards).times_selected := by
  intro rewards
  induction rewards with
  | nil => intro s; exact le_rfl
  | cons r rest ih =>
    intro s
    have h1 : s.times_selected ≤ (update_reward s r).times_selected :=
      Nat.le_succ _
    exact h1.trans (ih (update_reward s r))

lemma run_reward_updates_avg : ∀ (rest : List ℚ) (r : ℚ) (s : ArmCounters),
    (run_reward_updates s (r :: rest)).avg_reward =
      (run_reward_updates s (r :: rest)).total_reward /
        ((run_reward_updates s (r :: rest)).times_selected : ℚ) := by
  intro rest
  induction rest with
  | nil => intro r s; rfl
  | cons r' rest' ih => intro r s; exact ih r' (update_reward s r)

/-- Claim C8 (amended): after every reward update (any non-empty run of
updates) `avg_reward = total_reward / times_selected` holds, and
`times_selected` is monotone non-decreasing over the run (it increments by
one per update); `total_reward` and `avg_reward` are not monotone in general
(see the counterexample with a negative reward). -/
theorem C8_avg_reward_invariant_and_times_monotone (s : ArmCounters) (r : ℚ)
    (rewards : List ℚ) :
    (run_reward_updates s (r :: rewards)).avg_reward =
      (run_reward_updates s (r :: rewards)).total_reward /
        ((run_reward_updates s (r :: rewards)).times_selected : ℚ) ∧
    s.times_selected ≤ (run_reward_updates s rewards).times_selected ∧
    (update_reward s r).times_selected = s.times_selected + 1 :=
  ⟨run_reward_updates_avg rewards r s, run_reward_updates_times_mono rewards s,
   rfl⟩

/-- Claim C9: for every edge and any coefficients `(a, b, c, d)`, the
Analyzer's `compute_edge_costs` returns and writes back
`a·delay + b·queue + c·10·𝟙[spillback] + d·20·𝟙[incident]`; recomputing on
the written-back graph yields the identical cost dict; and the configured
defaults are `(1.0, 0.5, 10.0, 20.0)`. -/
theorem C9_compute_edge_costs_formula (g : TrafficGraph) (a b c d : ℚ) :
    (compute_edge_costs g (a, b, c, d)).1 =
      g.edges.map (fun e => ((e.from_node, e.to_node),
        a * e.current_delay + b * e.current_queue +
        c * 10 * (if e.spillback_active then (1 : ℚ) else 0) +
        d * 20 * (if e.incident_active then (1 : ℚ) else 0))) ∧
    (∀ e ∈ (compute_edge_costs g (a, b, c, d)).2.edges,
      e.edge_cost = a * e.current_delay + b * e.current_queue +
        c * 10 * (if e.spillback_active then (1 : ℚ) else 0) +
        d * 20 * (if e.incident_active then (1 : ℚ) else 0)) ∧
    (compute_edge_costs (compute_edge_costs g (a, b, c, d)).2 (a, b, c, d)).1 =
      (compute_edge_costs g (a, b, c, d)).1 ∧
    cost_coefficients_default = (1, 1/2, 10, 20) := by
  refine ⟨?_, ?_, ?_, rfl⟩
  · simp only [compute_edge_costs, List.map_map]
    refine List.map_congr_left ?_
    intro e _
    cases hs : e.spillback_active <;> cases hi : e.incident_active <;>
      simp [hs, hi]
  · intro e he
    simp only [compute_edge_costs, List.mem_map] at he
    obtain ⟨e₀, _, rfl⟩ := he
    cases hs : e₀.spillback_active <;> cases hi : e₀.incident_active <;>
      simp [hs, hi]
  · simp only [compute_edge_costs, List.map_map]
    refine List.map_congr_left ?_
    intro e _
    rfl

/-- Concrete graph for the C9 witness: edge `AB` with `queue = 80`,
`delay = 25` (spec scenario 2). -/
def C9_graph : TrafficGraph :=
  ⟨["A", "B"],
   [{ from_node := "A", to_node := "B", current_queue := 80,
      current_delay := 25 }]⟩

/-- The edge written back by `compute_edge_costs` on `C9_graph` with the
default coefficients: `cost = 1·25 + 0.5·80 = 65`. -/
def C9_edge : GraphEdge :=
  { from_node := "A", to_node := "B", current_queue := 80,
    current_delay := 25, edge_cost := 65 }

/-- Claim C9 (witness): `C9_compute_edge_costs_formula` evaluated on the
written-back edge of `C9_graph` with the default coefficients. -/
theorem C9_compute_edge_costs_witness :
    C9_edge.edge_cost =
      1 * C9_edge.current_delay + (1/2) * C9_edge.current_queue +
      10 * 10 * (if C9_edge.spillback_active then (1 : ℚ) else 0) +
      20 * 20 * (if C9_edge.incident_active then (1 : ℚ) else 0) :=
  (C9_compute_edge_costs_formula C9_graph 1 (1/2) 10 20).2.1 C9_edge (by
    norm_num [C9_graph, C9_edge, compute_edge_costs])

lemma list_getD_all_zero {l : List ℚ} (h : ∀ x ∈ l, x = 0) (i : ℕ) :
    l.getD i 0 = 0 := by
  induction l generalizing i with
  | nil => simp
  | cons a t ih =>
    cases i with
    | zero => simpa using h a (by simp)
    | succ n =>
      simpa using ih (fun x hx => h x (by simp [hx])) n

lemma np_percentile_all_zero {xs : List ℚ} (h : ∀ x ∈ xs, x = 0) (p : ℚ) :
    np_percentile xs p = 0 := by
  have hs : ∀ x ∈ xs.insertionSort (· ≤ ·), x = 0 := fun x hx =>
    h x ((List.perm_insertionSort _ xs).mem_iff.mp hx)
  simp only [np_percentile]
  rw [list_getD_all_zero hs, list_getD_all_zero hs]
  ring

lemma identify_hotspots_all_zero (g : TrafficGraph) (threshold : ℚ)
    (hne : g.edges ≠ []) (h0 : ∀ e ∈ g.edges, e.edge_cost = 0) :
    identify_hotspots g threshold =
      g.edges.map (fun e => (e.from_node, e.to_node)) := by
  have hz : np_percentile (g.edges.map (·.edge_cost)) (threshold * 100) = 0 :=
    np_percentile_all_zero (by
      intro x hx
      obtain ⟨e, he, rfl⟩ := List.mem_map.mp hx
      exact h0 e he) _
  simp only [identify_hotspots, if_neg hne, hz]
  rw [List.filter_eq_self.mpr (fun e he => by simp [h0 e he])]

/-- Claim C2 (amended): in every non-empty graph all of whose edges have
`edge_cost = 0` (e.g. after a snapshot with all lane counts 0) the percentile
threshold is 0, so `identify_hotspots` returns EVERY edge — not the empty
list — and consequently the Analyzer's targets have
`adaptation_needed = true`.  (The claimed fewer-than-two-edges guard does not
exist in the code: only an edgeless graph yields an empty hotspot list, see
the counterexample.) -/
theorem C2_all_zero_costs_all_edges_hotspots (g : TrafficGraph)
    (threshold : ℚ) (bypasses : List BypassRoute)
    (incidents : List IncidentRec)
    (edge_costs : List ((String × String) × ℚ)) (hne : g.edges ≠ [])
    (h0 : ∀ e ∈ g.edges, e.edge_cost = 0) :
    identify_hotspots g threshold =
      g.edges.map (fun e => (e.from_node, e.to_node)) ∧
    (determine_targets (identify_hotspots g threshold) bypasses incidents
        edge_costs).adaptation_needed = true := by
  have hh := identify_hotspots_all_zero g threshold hne h0
  refine ⟨hh, ?_⟩
  simp only [determine_targets, decide_eq_true_eq]
  left
  rw [hh]
  have hlen : 0 < g.edges.length := List.length_pos.mpr hne
  simp only [List.length_append, List.length_map]
  omega

/-- Concrete two-edge all-zero-cost graph for the C2 witness. -/
def C2_graph : TrafficGraph :=
  ⟨["A", "B", "C"],
   [{ from_node := "A", to_node := "B" }, { from_node := "A", to_node := "C" }]⟩

/-- Claim C2 (witness): `C2_all_zero_costs_all_edges_hotspots` evaluated on a
two-edge graph with all costs 0. -/
theorem C2_all_zero_costs_witness :
    identify_hotspots C2_graph (7/10) =
      C2_graph.edges.map (fun e => (e.from_node, e.to_node)) ∧
    (determine_targets (identify_hotspots C2_graph (7/10)) [] []
        []).adaptation_needed = true :=
  C2_all_zero_costs_all_edges_hotspots C2_graph (7/10) [] [] []
    (by simp [C2_graph])
    (by
      intro e he
      simp only [C2_graph, List.mem_cons, List.not_mem_nil, or_false] at he
      rcases he with rfl | rfl <;> rfl)

lemma validate_adaptation_true_iff (lib : List (String × String))
    (a : Adaptation) :
    validate_adaptation lib a = true ↔
      a.intersection_id ∈ signalized_intersections ∧
      0 ≤ a.phase_id.getD 0 ∧ a.phase_id.getD 0 ≤ 3 ∧
      0 ≤ a.offset.getD 0 ∧ a.offset.getD 0 ≤ 300 := by
  constructor
  · intro hv
    refine ⟨?_, ?_, ?_, ?_, ?_⟩
    · by_contra hm
      simp [validate_adaptation, hm] at hv
    · by_contra hp
      rw [not_le] at hp
      simp [validate_adaptation, hp] at hv
    · by_contra hp
      rw [not_le] at hp
      simp [validate_adaptation, hp] at hv
    · by_contra ho
      rw [not_le] at ho
      simp [validate_adaptation, ho] at hv
    · by_contra ho
      rw [not_le] at ho
      simp [validate_adaptation, ho] at hv
  · rintro ⟨hm, hp1, hp2, ho1, ho2⟩
    simp [validate_adaptation, validate_plan, hm, not_lt.mpr hp1,
      not_lt.mpr hp2, not_lt.mpr ho1, not_lt.mpr ho2]

lemma apply_adaptations_applied_eq_filter (api : Adaptation → Bool) :
    ∀ (ads : List Adaptation) (st : List (String × String)),
      (apply_adaptations api ads st).1 = ads.filter api := by
  intro ads
  induction ads with
  | nil => intro st; rfl
  | cons a rest ih =>
    intro st
    by_cases h : api a = true
    · simp [apply_adaptations, h, ih]
    · simp only [Bool.not_eq_true] at h
      simp [apply_adaptations, h, ih]

/-- Claim C4 (amended): the Executor rejects the whole batch — no adaptation
is attempted, the signal state is unchanged — exactly when some adaptation
has a non-signalized intersection id, a `phase_id` outside `[0, 3]` or an
offset outside `[0, 300]`; the plan-library check never rejects because
`SafetyValidator.validate_plan` returns true unconditionally.  When the three
checks pass for every adaptation, all of them are attempted (those whose API
call succeeds are applied). -/
theorem C4_validation_rejects_batch (lib : List (String × String))
    (api : Adaptation → Bool) (ads : List Adaptation)
    (st : List (String × String)) :
    (validate_adaptations lib ads = true ↔ ∀ a ∈ ads,
      a.intersection_id ∈ signalized_intersections ∧
      0 ≤ a.phase_id.getD 0 ∧ a.phase_id.getD 0 ≤ 3 ∧
      0 ≤ a.offset.getD 0 ∧ a.offset.getD 0 ≤ 300) ∧
    (validate_adaptations lib ads = false →
      executor_execute lib api ads st = ([], st)) ∧
    (validate_adaptations lib ads = true →
      (executor_execute lib api ads st).1 = ads.filter api) := by
  refine ⟨?_, ?_, ?_⟩
  · rw [validate_adaptations, List.all_eq_true]
    exact forall₂_congr fun a _ => validate_adaptation_true_iff lib a
  · intro hv
    by_cases hne : ads = []
    · simp [executor_execute, hne]
    · simp [executor_execute, hne, hv]
  · intro hv
    by_cases hne : ads = []
    · simp [executor_execute, hne]
    · simp [executor_execute, hne, hv,
        apply_adaptations_applied_eq_filter]

/-- Claim C4 (witness): a batch with one well-formed adaptation passes
validation and is attempted (and applied, the API succeeding). -/
theorem C4_validation_witness :
    (executor_execute [] (fun _ => true)
        [{ intersection_id := "B", plan_id := "plan_x" }] []).1 =
      [({ intersection_id := "B", plan_id := "plan_x" } : Adaptation)].filter
        (fun _ => true) :=
  (C4_validation_rejects_batch [] (fun _ => true)
      [{ intersection_id := "B", plan_id := "plan_x" }] []).2.2 (by decide)

/-- Claim C7: the Planner's selection set is always a subset of the
signalized ids `{A, B, C, D, E}`; when the collected set is empty it is
exactly the full signalized set; and a batch that passes the Executor's
validation contains only signalized intersections, so the Executor never
sends a plan to a virtual intersection. -/
theorem C7_no_adaptation_for_virtual (edges_to_throttle : List TargetEdge)
    (edges_to_favor : List TargetEdge) (coordination_groups : List CoordGroup)
    (incidents : List IncidentRec) (lib : List (String × String))
    (ads : List Adaptation) :
    get_intersections_needing_updates edges_to_throttle edges_to_favor
        coordination_groups incidents ⊆ signalized_intersections ∧
    (collect_update_intersections edges_to_throttle edges_to_favor
        coordination_groups incidents = ∅ →
      get_intersections_needing_updates edges_to_throttle edges_to_favor
        coordination_groups incidents = signalized_intersections) ∧
    (validate_adaptations lib ads = true →
      ∀ a ∈ ads, a.intersection_id ∈ signalized_intersections) := by
  refine ⟨?_, ?_, ?_⟩
  · simp only [get_intersections_needing_updates]
    exact Finset.inter_subset_right
  · intro h
    simp only [get_intersections_needing_updates, h, if_pos]
    exact Finset.inter_self _
  · intro hv a ha
    have h := (List.all_eq_true.mp hv) a ha
    exact ((validate_adaptation_true_iff lib a).mp h).1

/-- Claim C7 (witness): with nothing collected, the selection set is exactly
`{A, B, C, D, E}`; and a validated singleton batch targets a signalized
intersection. -/
theorem C7_no_adaptation_for_virtual_witness :
    get_intersections_needing_updates [] [] [] [] =
      signalized_intersections ∧
    ({ intersection_id := "C", plan_id := "p" } : Adaptation).intersection_id ∈
      signalized_intersections :=
  ⟨(C7_no_adaptation_for_virtual [] [] [] [] []
      [{ intersection_id := "C", plan_id := "p" }]).2.1 (by decide),
   (C7_no_adaptation_for_virtual [] [] [] [] []
      [{ intersection_id := "C", plan_id := "p" }]).2.2 (by decide)
      { intersection_id := "C", plan_id := "p" } (by simp)⟩

lemma walk_path_pairs_no_hotspot (g : TrafficGraph) (hot : String × String) :
    ∀ (rest : List String) (prev : String),
      (walk_path_pairs g hot prev rest).2.2 = false →
      hot ∉ (walk_path_pairs g hot prev rest).1 := by
  intro rest
  induction rest with
  | nil =>
    intro prev _
    simp [walk_path_pairs]
  | cons next tail ih =>
    intro prev hfalse
    by_cases hek : (prev, next) = hot
    · rw [walk_path_pairs, if_pos hek] at hfalse
      simp at hfalse
    · rw [walk_path_pairs, if_neg hek] at hfalse ⊢
      simp only [List.mem_cons, not_or]
      exact ⟨fun h => hek h.symm, ih next hfalse⟩

lemma process_path_no_hotspot (g : TrafficGraph) (hot : String × String)
    (path : List String) (h : (process_path g hot path).2.2 = false) :
    hot ∉ (process_path g hot path).1 := by
  cases path with
  | nil => simp [process_path]
  | cons v rest => exact walk_path_pairs_no_hotspot g hot rest v h

/-- Claim C10: every bypass record returned by the k-shortest-path search
has a non-empty path that does not contain the hotspot edge it bypasses —
the conversion loop breaks with `uses_hotspot = True` on the hotspot pair and
such paths are filtered out.  This holds for every enumeration
`simple_paths` in place of `nx.shortest_simple_paths`. -/
theorem C10_bypass_path_excludes_hotspot (g : TrafficGraph) (k : ℕ)
    (hotspots : List (String × String))
    (simple_paths : String → String → List (List String)) (r : BypassRoute)
    (hr : r ∈ find_k_shortest_paths g k hotspots simple_paths) :
    r.bypasses ∉ r.path ∧ r.path ≠ [] := by
  simp only [find_k_shortest_paths] at hr
  split at hr
  · simp at hr
  · simp only [List.mem_flatMap] at hr
    obtain ⟨hot, _, hr⟩ := hr
    split at hr
    · simp at hr
    · split at hr
      · simp at hr
      · simp only [List.mem_flatMap] at hr
        obtain ⟨up, _, down, _, hr⟩ := hr
        simp only [List.mem_filterMap] at hr
        obtain ⟨path, _, hsome⟩ := hr
        split at hsome
        · rename_i hcond
          obtain ⟨huse, hne⟩ := hcond
          cases hsome
          exact ⟨process_path_no_hotspot g hot path huse, hne⟩
        · exact absurd hsome (by simp)

/-- Concrete graph for the C10 witness: hotspot `A→B` with predecessor `P`
and successor `S`, and a candidate bypass path `P→C→S`. -/
def C10_graph : TrafficGraph :=
  ⟨["P", "A", "B", "S", "C"],
   [{ from_node := "P", to_node := "A" }, { from_node := "A", to_node := "B" },
    { from_node := "B", to_node := "S" }]⟩

/-- Candidate path enumeration for the C10 witness (stands for
`nx.shortest_simple_paths`). -/
def C10_paths : String → String → List (List String) := fun u v =>
  if u = "P" ∧ v = "S" then [["P", "C", "S"]] else []

/-- The single bypass record the search returns on `C10_graph`. -/
def C10_route : BypassRoute :=
  { source := "P", destination := "S", path := [("P", "C"), ("C", "S")],
    total_cost := 0, bypasses := ("A", "B"), length := 2 }

/-- Claim C10 (witness): `C10_bypass_path_excludes_hotspot` applied to the
concrete bypass record produced on `C10_graph`. -/
theorem C10_bypass_witness :
    C10_route.bypasses ∉ C10_route.path ∧ C10_route.path ≠ [] :=
  C10_bypass_path_excludes_hotspot C10_graph 3 [("A", "B")] C10_paths
    C10_route (by
      have hwalk : process_path C10_graph ("A", "B") ["P", "C", "S"] =
          ([("P", "C"), ("C", "S")], 0, false) := by
        simp [process_path, walk_path_pairs, get_edge, C10_graph, List.find?]
      have hfind : find_k_shortest_paths C10_graph 3 [("A", "B")] C10_paths =
          [C10_route] := by
        simp only [C10_graph] at hwalk
        simp [find_k_shortest_paths, C10_graph, C10_paths, hwalk, C10_route,
          graph_predecessors, graph_successors, List.filter]
      rw [hfind]
      simp)

/-- Bandit-state table for the C3 failing input: two arms at intersection
`A`, `plan_a` pulled once, `plan_b` pulled three times, both with zero
reward. -/
def C3_db : String → String → Option BanditRow := fun _ plan_id =>
  if plan_id = "plan_a" then some ⟨1, 0, 0, 1⟩
  else if plan_id = "plan_b" then some ⟨3, 0, 0, 1⟩
  else none

/-- The valid plans for the C3 failing input, in library order. -/
def C3_plans : List BanditPlan := [⟨"plan_a"⟩, ⟨"plan_b"⟩]

lemma C3_stats_a : get_arm_stats C3_db "A" "plan_a" = ⟨1, 0, 0, 1, 1⟩ := by
  simp [get_arm_stats, get_bandit_stats, C3_db]

lemma C3_stats_b : get_arm_stats C3_db "A" "plan_b" = ⟨3, 0, 0, 1, 3⟩ := by
  simp [get_arm_stats, get_bandit_stats, C3_db]

lemma C3_ucb_a_eq_zero : ucb_value (1/5) ⟨1, 0, 0, 1, 1⟩ = 0 := by
  simp [ucb_value]

lemma C3_ucb_b_pos : 0 < ucb_value (1/5) ⟨3, 0, 0, 1, 3⟩ := by
  simp only [ucb_value]
  norm_num
  exact Real.log_pos (by norm_num)

/-- Claim C3: at the failing input (arm `plan_a`: 1 pull, mean reward 0; arm
`plan_b`: 3 pulls, mean reward 0; ε = 0.2) the code selects `plan_b`:
`KnowledgeBase.get_bandit_stats` returns `total_pulls = times_selected` of
the SAME arm, so the code's confidence term is `ε·√(ln N_p / N_p)` — 0 for
`plan_a` (ln 1 = 0) and positive for `plan_b`.  The claim's formula with
`T = 1 + 3 = 4` total pulls over the intersection's arms scores `plan_a`
strictly higher (`√(ln 4) > √(ln 4 / 3)`), so the selected plan does not
maximise the claimed objective. -/
theorem C3_select_ucb_code_eval :
    select_ucb C3_db "A" (1/5) C3_plans = some ⟨"plan_b"⟩ ∧
    spec_ucb_value C3_db "A" C3_plans (1/5) ⟨"plan_b"⟩ <
      spec_ucb_value C3_db "A" C3_plans (1/5) ⟨"plan_a"⟩ := by
  constructor
  · have hlt : ucb_value (1/5) ⟨1, 0, 0, 1, 1⟩ <
        ucb_value (1/5) ⟨3, 0, 0, 1, 3⟩ := by
      rw [C3_ucb_a_eq_zero]
      exact C3_ucb_b_pos
    simp only [select_ucb, C3_plans, select_ucb_loop, C3_stats_a, C3_stats_b]
    rw [if_pos hlt]
    simp [select_ucb_loop]
  · have hT : (C3_plans.map fun q =>
        (get_arm_stats C3_db "A" q.plan_id).times_selected).sum = 4 := by
      simp [C3_plans, C3_stats_a, C3_stats_b]
    simp only [spec_ucb_value, hT, C3_stats_a, C3_stats_b]
    norm_num
    refine div_lt_self (Real.sqrt_pos.mpr (Real.log_pos (by norm_num))) ?_
    rw [show (1 : ℝ) = Real.sqrt 1 from (Real.sqrt_one).symm]
    exact Real.sqrt_lt_sqrt (by norm_num) (by norm_num)
